import Mathlib

/-!
Verification of the Resource/Action REST client core (`rest_core`).

The Python sources are shallowly embedded: each class becomes a structure,
each method a pure function.  Python `dict[str, str]` values are embedded as
insertion-ordered association lists without duplicate keys (`Headers`);
`dict.get` is first-match lookup, `d[k] = v` updates in place or appends,
`dict.update` folds the assignment over the right operand, `del d[k]`
removes the entry.  Python truthiness is embedded explicitly: `None` and the
empty string / empty list are falsy.  Exceptions become an `Except PyErr`
result, and a Python function body whose `return` can mention a local
variable that was never assigned returns a dedicated `unboundLocal` outcome.
-/

namespace RestCore

/-- Exceptions the embedded code can surface (from `rest_core/exceptions.py`,
plus the builtin `IndexError` and `ArithmeticError` that the sources can
raise). -/
inductive PyErr where
  | apiUrlError
  | actionURLMatchError
  | apiActionNotFound
  | indexError
  | arithmeticError
  | dataValidationError
  | dataFormatError
  deriving DecidableEq, Repr

/-! ## Python `dict[str, str]` as an ordered association list -/

/-- A Python `dict[str, str]`: insertion-ordered key/value pairs.
`HttpHeaders._headers` is such a dict. -/
abbrev Headers := List (String × String)

/-- Python `d.get(k)`: first entry whose key equals `k` (a dict built by the
operations below never has duplicate keys, so "first" is "the" entry). -/
def dget (d : Headers) (k : String) : Option String :=
  match d.find? (fun p => p.1 == k) with
  | some p => some p.2
  | none => none

/-- Python `k in d`: key membership. -/
def dcontains (d : Headers) (k : String) : Bool :=
  (dget d k).isSome

/-- Python `d[k] = v`: replace the value in place when the key is present,
otherwise append the new pair (Python dict assignment). -/
def dinsert (d : Headers) (k v : String) : Headers :=
  if dcontains d k then
    d.map (fun p => if p.1 == k then (k, v) else p)
  else
    d ++ [(k, v)]

/-- Python `d.update(other)`: fold dict assignment over `other`'s entries. -/
def dupdate (d other : Headers) : Headers :=
  other.foldl (fun acc p => dinsert acc p.1 p.2) d

/-- Python `del d[k]` (total version): drop the entries whose key is `k`. -/
def derase (d : Headers) (k : String) : Headers :=
  d.filter (fun p => p.1 != k)

/-- The dict invariant: no duplicate keys. -/
def NodupKeys (d : Headers) : Prop :=
  (d.map Prod.fst).Nodup

instance (d : Headers) : Decidable (NodupKeys d) := by
  unfold NodupKeys; infer_instance

/-! ## `HttpHeaders` methods (`rest_core/http_headers.py`) -/

/-- Embeds `HttpHeaders.get_header_value`. -/
def get_header_value (h : Headers) (key : String) : Option String :=
  dget h key

/-- Embeds `HttpHeaders.set_header_value`. -/
def set_header_value (h : Headers) (key item : String) : Headers :=
  dinsert h key item

/-- Embeds `HttpHeaders.del_headers_item(key)`: the source tests
`if "Authorization" in self.headers` and deletes that entry — the `key`
argument is never consulted. -/
def del_headers_item (h : Headers) (key : String) : Headers :=
  if dcontains h "Authorization" then derase h "Authorization" else h

/-- Embeds `HttpHeaders.__add__` with an `HttpHeaders` (or `None`) right operand:
deep-copy the left dict and `update` it with the right one; an incompatible
operand such as `None` raises `ArithmeticError`. -/
def headers_add (a : Headers) (b : Option Headers) : Except PyErr Headers :=
  match b with
  | some hb => Except.ok (dupdate a hb)
  | none => Except.error PyErr.arithmeticError

/-! ## `Auth` (`rest_core/auth.py`) and base64 -/

/-- The base64 alphabet, index `n` is the digit for sextet value `n`. -/
def base64Alphabet : List Char :=
  "ABCDEFGHIJKLMNOPQRSTUVWXYZabcdefghijklmnopqrstuvwxyz0123456789+/".toList

/-- Digit character for a sextet. -/
def b64Digit (n : Nat) : Char :=
  base64Alphabet.getD n '?'

/-- Standard base64 of a byte list (RFC 4648, with `=` padding), as used by
Python's `base64.b64encode`. -/
def b64Chunks : List Nat → List Char
  | b1 :: b2 :: b3 :: rest =>
      let n := b1 * 65536 + b2 * 256 + b3
      b64Digit (n / 262144 % 64) :: b64Digit (n / 4096 % 64) ::
        b64Digit (n / 64 % 64) :: b64Digit (n % 64) :: b64Chunks rest
  | [b1, b2] =>
      let n := b1 * 1024 + b2 * 4
      [b64Digit (n / 4096 % 64), b64Digit (n / 64 % 64), b64Digit (n % 64), '=']
  | [b1] =>
      let n := b1 * 16
      [b64Digit (n / 64 % 64), b64Digit (n % 64), '=', '=']
  | [] => []

/-- Python `base64.b64encode(bytes(s, "ascii")).decode()` for an ASCII string. -/
def b64encode (s : String) : String :=
  String.mk (b64Chunks (s.toList.map Char.toNat))

/-- Structure `Auth`: optional ASCII credentials.  The ASCII validation of the setters
is not modelled (it never changes a stored value, it only rejects). -/
structure Auth where
  username : Option String := none
  password : Option String := none
  encoding : String := "ascii"

/-- Embeds `Auth.auth_str`: base64 of `username:password` when both are truthy
(present and non-empty) strings, otherwise `None`. -/
def Auth.auth_str (a : Auth) : Option String :=
  match a.username, a.password with
  | some u, some p =>
      if u ≠ "" ∧ p ≠ "" then some (b64encode (u ++ ":" ++ p)) else none
  | _, _ => none

/-- Embeds `Auth.base_auth`: prefix the truthy `auth_str` with `"Base "`
(the source and its test `test_base_auth` both use `"Base"`, not
`"Basic"`). -/
def Auth.base_auth (a : Auth) : Option String :=
  match a.auth_str with
  | none => none
  | some s => if s ≠ "" then some ("Base " ++ s) else some s

/-! ## `Token` (`client/rest_core/token.py`)

Timestamps are embedded as integer seconds; `datetime.now()` becomes an
explicit `now` argument, passed to the constructor (the clamping step) and
to `is_valid` separately, exactly where the source calls `datetime.now()`. -/

structure Token where
  token : String
  initialization_time : Int
  before_expiration : Option Int
  deriving DecidableEq, Repr

/-- Embeds `Token.__init__`: a missing or future `initialization_time` is clamped
to `now`; `before_expiration` is kept only when it is a truthy int
(Python truthiness: `0` is falsy and is dropped to `None`). -/
def Token.init (tok : String) (initialization_time : Option Int)
    (before_expiration : Option Int) (now : Int) : Token :=
  { token := tok
    initialization_time :=
      match initialization_time with
      | some it => if it > now then now else it
      | none => now
    before_expiration :=
      match before_expiration with
      | some b => if b = 0 then none else some b
      | none => none }

/-- Embeds `Token.is_valid`: `True` when `before_expiration` is falsy, else
`initialization_time + timedelta(seconds=before_expiration) > now`. -/
def Token.is_valid (t : Token) (now : Int) : Bool :=
  match t.before_expiration with
  | none => true
  | some b =>
      if b = 0 then true
      else decide (t.initialization_time + b > now)

/-! ## Python `str.format` for auto-numbered `\x7b\x7d` templates

`Resource.get_action_path_part` substitutes path parameters with
`action.path.format(*parts)`.  The templates used by the routing layer
contain only literal characters and empty auto-numbered placeholder pairs;
`pyFormatChars` models `str.format` on exactly that fragment: each
placeholder consumes the next parameter, a missing parameter is Python's
`IndexError` (`none` here), surplus parameters are ignored. -/

def pyFormatChars : List Char → List String → Option String
  | [], _ => some ""
  | '{' :: '}' :: rest, parts =>
      match parts with
      | [] => none
      | p :: ps =>
          match pyFormatChars rest ps with
          | some s => some (p ++ s)
          | none => none
  | c :: rest, parts =>
      match pyFormatChars rest parts with
      | some s => some (c.toString ++ s)
      | none => none

/-- Python `template.format(*parts)`. -/
def pyFormat (template : String) (parts : List String) : Option String :=
  pyFormatChars template.toList parts

/-- Number of placeholder pairs in a template. -/
def countPlaceholders : List Char → Nat
  | '{' :: '}' :: rest => countPlaceholders rest + 1
  | _ :: rest => countPlaceholders rest
  | [] => 0

/-- The template fragment `pyFormatChars` is faithful on: braces occur only
as adjacent placeholder pairs. -/
def wfTemplate : List Char → Bool
  | '{' :: '}' :: rest => wfTemplate rest
  | '{' :: _ => false
  | '}' :: _ => false
  | _ :: rest => wfTemplate rest
  | [] => true

/-! ## `Action` / `Resource` (`rest_core/action.py`, `rest_core/resource.py`) -/

/-- Generic lookup in a Python `dict[str, α]` (first — hence only — match). -/
def alookup {α : Type} (d : List (String × α)) (k : String) : Option α :=
  match d.find? (fun p => p.1 == k) with
  | some p => some p.2
  | none => none

/-- HTTP verbs (`rest_types.Method`). -/
inductive Method where
  | GET
  | PUT
  | POST
  | DELETE
  deriving DecidableEq, Repr

/-- Embeds `Method.value`. -/
def Method.value : Method → String
  | .GET => "GET"
  | .PUT => "PUT"
  | .POST => "POST"
  | .DELETE => "DELETE"

/-- Structure `ActionObject`: an optional trailing sub-endpoint; only its `name` is
consulted by URL composition (`query_params`/`response_model` are not). -/
structure ActionObject where
  name : String
  deriving DecidableEq, Repr

/-- Structure `Action`: `headers` may be `None` when the object is built directly
(`Action.__init__` stores the argument as-is; only
`Resource.create_action` defaults it to an empty `HttpHeaders`). -/
structure Action where
  name : String
  method : Method
  path : Option String := none
  path_params : Option (List String) := none
  headers : Option Headers := none
  objects : List (String × ActionObject) := []

/-- Embeds `Action.get_obj`: dict lookup guarded by the truthiness of
`obj_name`. -/
def Action.get_obj (a : Action) (obj_name : Option String) :
    Option ActionObject :=
  match obj_name with
  | some n => if n ≠ "" then alookup a.objects n else none
  | none => none

/-- Structure `Resource`: `headers` defaults to an empty `HttpHeaders` in
`Resource.__init__`, so it is never `None`. -/
structure Resource where
  name : String
  headers : Headers := []
  path : String
  path_params : Option (List String) := none
  actions : List (String × Action) := []

/-- Embeds `Resource.get_action`. -/
def Resource.get_action (r : Resource) (action_name : String) :
    Option Action :=
  alookup r.actions action_name

/-- A falsy optional parameter list (`None` in Python) read as a list. -/
def optParts : Option (List String) → List String
  | some l => l
  | none => []

/-- Embeds `Resource.get_action_path_part(action_name, obj_name, *args)`:
the action's name, extended with the parameter path (template substitution
via `str.format` when a truthy `action.path` template exists, otherwise a
`/`-join), and with the resolved object name.  A `format` `IndexError` is
re-raised as `ActionURLMatchError`.  Parameter precedence: explicit `args`,
else `action.path_params`, else `resource.path_params` (first truthy
candidate wins). -/
def Resource.get_action_path_part (r : Resource) (action_name : String)
    (obj_name : Option String) (args : List String) :
    Except PyErr (Option String) :=
  match r.get_action action_name with
  | none => Except.ok none
  | some action =>
      let parts :=
        if args ≠ [] then args
        else if optParts action.path_params ≠ [] then optParts action.path_params
        else optParts r.path_params
      let params_step : Except PyErr (Option String) :=
        if parts ≠ [] then
          match action.path with
          | some tmpl =>
              if tmpl ≠ "" then
                match pyFormat tmpl parts with
                | some s => Except.ok (some s)
                | none => Except.error PyErr.actionURLMatchError
              else Except.ok (some (String.intercalate "/" parts))
          | none => Except.ok (some (String.intercalate "/" parts))
        else Except.ok none
      match params_step with
      | Except.error e => Except.error e
      | Except.ok params_part =>
          let url₁ := action.name
          let url₂ :=
            match params_part with
            | some s => if s ≠ "" then url₁ ++ "/" ++ s else url₁
            | none => url₁
          let url₃ :=
            match action.get_obj obj_name with
            | some obj => url₂ ++ "/" ++ obj.name
            | none => url₂
          Except.ok (some url₃)

/-! ## `HTTPClient.make_request` (`Client/rest_core/http_client.py`)

The phase of `make_request` up to the transport call is embedded as a pure
function from the client state and the call arguments to a `PreOutcome`:
either the call returns `None` without attempting a request (`abortNone`),
or it raises (`raiseErr` — no pre-transport path of the source does), or it
dispatches a fully assembled request (`send`).  `datetime.now()` is the
explicit `now` argument; the session's configured total timeout is the
`sessionTimeout` argument (`0` models a falsy/absent value). -/

/-- Embeds `aiohttp.BasicAuth` (only identity matters here). -/
structure BasicAuth where
  login : String
  password : String
  deriving DecidableEq, Repr

/-- Constant `TOTAL_TIMEOUT` from `rest_core/session.py`. -/
def TOTAL_TIMEOUT : Nat := 30

/-- Client state (`HTTPClient.__init__` plus the `token` property).
`url = ""` models an absent/empty base URL; `headers` is never `None`
(the constructor defaults it to an empty `HttpHeaders`). -/
structure HTTPClient where
  url : String
  auth : Option BasicAuth := none
  headers : Headers := []
  payload : Option Headers := none
  token : Option Token := none

/-- Keyword arguments of `make_request` (payload/params values are embedded
as strings; only their truthiness and identity matter to the claims). -/
structure MakeArgs where
  method : String
  url_part : String
  auth : Option BasicAuth := none
  headers : Option Headers := none
  params : Option Headers := none
  payload : Option Headers := none
  auth_required : Bool := false
  request_timeout : Option Nat := none

/-- The request handed to `session._request`. -/
structure RequestPlan where
  method : String
  url : String
  auth : Option BasicAuth
  payload : Option Headers
  params : Option Headers
  headers : Headers
  timeout : Nat
  deriving DecidableEq, Repr

/-- Outcome of the pre-transport phase of `make_request`. -/
inductive PreOutcome where
  | abortNone
  | raiseErr (e : PyErr)
  | send (plan : RequestPlan)
  deriving DecidableEq, Repr

/-- Python `x or y` on optional dict-valued expressions (an empty dict is
falsy). -/
def pyOrDict (x y : Option Headers) : Option Headers :=
  match x with
  | some l => if l ≠ [] then some l else y
  | none => y

/-- Python `self.token and self.token.is_valid()`. -/
def HTTPClient.tokenOk (c : HTTPClient) (now : Int) : Bool :=
  match c.token with
  | some t => t.is_valid now
  | none => false

/-- Embeds `HTTPClient.make_request`, up to the transport call.

Line by line: effective headers are the `headers` argument if given, else
`self.headers` (Python object truthiness: any `HttpHeaders` instance is
truthy, so `headers or self.headers or HttpHeaders()` picks the first
non-`None`); effective payload is `payload or self.payload`.  When
`auth_required` holds without a valid token, log and return `None`.  With a
valid token, `set_auth_head` stores the token string under
`"Authorization"` in `self.headers` — when no `headers` argument was
passed, the effective headers alias `self.headers` and see that update.
An `Authorization` entry in the effective headers suppresses the `auth`
argument; otherwise a missing `auth` argument falls back to `self.auth`.
The URL is `self.url + "/" + url_part` when both are truthy, else whichever
is truthy; neither truthy logs and returns `None` (the `raise` in the
source is commented out).  The timeout is the argument if truthy, else the
session total, else `TOTAL_TIMEOUT`. -/
def HTTPClient.make_request (c : HTTPClient) (sessionTimeout : Nat)
    (now : Int) (a : MakeArgs) : PreOutcome :=
  let headers₀ :=
    match a.headers with
    | some h => h
    | none => c.headers
  let payload := pyOrDict a.payload c.payload
  if a.auth_required ∧ c.tokenOk now = false then
    PreOutcome.abortNone
  else
    let headers :=
      if a.auth_required then
        match a.headers with
        | some h => h
        | none =>
            dinsert c.headers "Authorization"
              ((c.token.map Token.token).getD "")
      else headers₀
    let auth :=
      if dcontains headers "Authorization" then
        none
      else
        match a.auth with
        | some x => some x
        | none => c.auth
    let url :=
      if c.url ≠ "" ∧ a.url_part ≠ "" then c.url ++ "/" ++ a.url_part
      else if c.url ≠ "" then c.url
      else a.url_part
    if url = "" then
      PreOutcome.abortNone
    else
      let timeout :=
        match a.request_timeout with
        | some t =>
            if t ≠ 0 then t
            else if sessionTimeout ≠ 0 then sessionTimeout else TOTAL_TIMEOUT
        | none =>
            if sessionTimeout ≠ 0 then sessionTimeout else TOTAL_TIMEOUT
      PreOutcome.send
        { method := a.method
          url := url
          auth := auth
          payload := payload
          params := a.params
          headers := headers
          timeout := timeout }

/-! ## `HTTPClient.make_request` — response handling

The success branch of `make_request` after the transport call.  The local
variable `response` is assigned only inside the `if text:` block; the
final `return response` sits outside it, so an empty body reaches a
`return` of a never-assigned local — Python's `UnboundLocalError`, embedded
as the dedicated outcome `unboundLocal`.  JSON decoding is abstracted by
the `decode` argument (`j.loads`): on success the decoded value is the
data, on failure the raw text is kept (the `JsonFormatError` raise is
commented out).  The default `Response[DataType]` model is a generic
container that accepts any status/headers/data triple. -/

/-- The `data` attribute of a response: decoded JSON or the raw text. -/
inductive RespData (α : Type) where
  | json (v : α)
  | raw (s : String)
  deriving DecidableEq, Repr

/-- The typed response object `{status_code, headers, data}`. -/
structure ResponseObj (α : Type) where
  status_code : Nat
  headers : Headers
  data : RespData α
  deriving DecidableEq, Repr

/-- Outcome of the response-handling phase. -/
inductive BodyOutcome (α : Type) where
  | ok (r : ResponseObj α)
  | raiseErr (e : PyErr)
  | unboundLocal
  deriving DecidableEq, Repr

/-- The success branch of `make_request` after `res.text()` returned
`text`. -/
def processResponse {α : Type} (decode : String → Option α) (text : String)
    (status : Nat) (respHeaders : Headers) : BodyOutcome α :=
  if text ≠ "" then
    let data : RespData α :=
      match decode text with
      | some v => RespData.json v
      | none => RespData.raw text
    BodyOutcome.ok { status_code := status, headers := respHeaders, data := data }
  else
    BodyOutcome.unboundLocal

/-! ## `RestClient` (`rest_core/rest_client.py`) -/

/-- Structure `RestClient`: an `HTTPClient` owning a named `Resource` collection. -/
structure RestClient extends HTTPClient where
  resources : List (String × Resource) := []

/-- Embeds `RestClient.get_resource`. -/
def RestClient.get_resource (c : RestClient) (resource_name : String) :
    Option Resource :=
  alookup c.resources resource_name

/-- Embeds `Resource.get_method` (via `get_action_attr`): `ApiActionNotFound` when
the action is absent. -/
def Resource.get_method (r : Resource) (action_name : String) :
    Except PyErr Method :=
  match r.get_action action_name with
  | none => Except.error PyErr.apiActionNotFound
  | some a => Except.ok a.method

/-- Embeds `Resource.get_headers` (via `get_action_attr`). -/
def Resource.get_headers (r : Resource) (action_name : String) :
    Except PyErr (Option Headers) :=
  match r.get_action action_name with
  | none => Except.error PyErr.apiActionNotFound
  | some a => Except.ok a.headers

/-- Embeds `RestClient.get_url_part`: the resource's base path joined with the
action path part; either part may be missing/falsy and is then skipped. -/
def RestClient.get_url_part (c : RestClient) (resource_name action_name : String)
    (obj_name : Option String) (args : List String) :
    Except PyErr (Option String) :=
  match c.get_resource resource_name with
  | none => Except.ok none
  | some r =>
      match r.get_action_path_part action_name obj_name args with
      | Except.error e => Except.error e
      | Except.ok app =>
          Except.ok
            (if r.path ≠ "" then
              some
                (match app with
                | some s => if s ≠ "" then r.path ++ "/" ++ s else r.path
                | none => r.path)
            else app)

/-- Embeds `RestClient.request`: resolve the resource (silently returning `None`
when absent), read the action's method, compose the URL part, overwrite the
`headers` argument with `self.headers + resource.headers + action.headers`
(the passed argument is discarded by the source), and delegate to
`make_request` (without `auth_required` or `request_timeout`, which keep
their defaults). -/
def RestClient.request (c : RestClient) (sessionTimeout : Nat) (now : Int)
    (resource_name action_name : String) (obj_name : Option String)
    (args : List String) (auth : Option BasicAuth)
    (headersArg : Option Headers) (params payload : Option Headers) :
    Except PyErr (Option PreOutcome) :=
  match c.get_resource resource_name with
  | none => Except.ok none
  | some res =>
      match res.get_method action_name with
      | Except.error e => Except.error e
      | Except.ok m =>
          match c.get_url_part resource_name action_name obj_name args with
          | Except.error e => Except.error e
          | Except.ok url_part =>
              match res.get_headers action_name with
              | Except.error e => Except.error e
              | Except.ok actionHeaders =>
                  match headers_add (dupdate c.headers res.headers)
                      actionHeaders with
                  | Except.error e => Except.error e
                  | Except.ok merged =>
                      Except.ok (some (c.toHTTPClient.make_request
                        sessionTimeout now
                        { method := m.value
                          url_part := url_part.getD ""
                          auth := auth
                          headers := some merged
                          params := params
                          payload := payload }))

/-! ## Concrete fixtures (used to evaluate the claims on explicit inputs) -/

/-- The headers of the plan a dispatch outcome would send, when it sends. -/
def sentHeaders : Except PyErr (Option PreOutcome) → Option Headers
  | Except.ok (some (PreOutcome.send plan)) => some plan.headers
  | _ => none

/-- An action with the two-placeholder detail template of the spec's
path-substitution scenario. -/
def detailAction : Action :=
  { name := "act"
    method := Method.GET
    path := some "\x7b\x7d/\x7b\x7d/detail" }

/-- A resource holding `detailAction`. -/
def detailResource : Resource :=
  { name := "r"
    path := "rpath"
    actions := [("act", detailAction)] }

/-- Action of the header-precedence scenario: `Accept: application/json`. -/
def jsonAction : Action :=
  { name := "act"
    method := Method.GET
    headers := some [("Accept", "application/json")] }

/-- Resource of the header-precedence scenario: no headers of its own. -/
def plainResource : Resource :=
  { name := "r"
    path := "rpath"
    actions := [("act", jsonAction)] }

/-- Client of the header-precedence scenario: `Accept: text/plain`. -/
def acceptClient : RestClient :=
  { toHTTPClient := { url := "http://h", headers := [("Accept", "text/plain")] }
    resources := [("r", plainResource)] }

/-- An action built directly through `Action.__init__` without a header
set: `headers` stays `None`. -/
def bareAction : Action :=
  { name := "act"
    method := Method.GET }

/-- A resource holding `bareAction`. -/
def bareResource : Resource :=
  { name := "r"
    path := "rpath"
    actions := [("act", bareAction)] }

/-- A client holding `bareResource`. -/
def bareClient : RestClient :=
  { toHTTPClient := { url := "http://h", headers := [("Accept", "text/plain")] }
    resources := [("r", bareResource)] }

/-- A token issued at time 100 with a 60-second TTL. -/
def sampleToken : Token :=
  Token.init "TOKSTR" (some 100) (some 60) 100

/-- A client holding `sampleToken`. -/
def tokenClient : HTTPClient :=
  { url := "http://h/api"
    headers := [("Accept", "text/plain")]
    token := some sampleToken }

/-- A client whose header set already carries an `Authorization` entry. -/
def presetAuthClient : HTTPClient :=
  { url := "http://h/api"
    headers := [("Authorization", "Bearer X")]
    auth := some { login := "stored", password := "secret" } }

/-! ### Lookup lemmas for the dict embedding -/

theorem dget_nil (k : String) : dget [] k = none := rfl

theorem dget_cons (p : String × String) (d : Headers) (k : String) :
    dget (p :: d) k = if p.1 = k then some p.2 else dget d k := by
  by_cases h : p.1 = k
  · rw [dget, List.find?_cons_of_pos _ (by simp [h]), if_pos h]
  · rw [dget, List.find?_cons_of_neg _ (by simp [h]), if_neg h]; rfl

theorem dget_append (d₁ d₂ : Headers) (k : String) :
    dget (d₁ ++ d₂) k = match dget d₁ k with
      | some v => some v
      | none => dget d₂ k := by
  induction d₁ with
  | nil => simp [dget_nil]
  | cons p d ih =>
      by_cases h : p.1 = k <;> simp [dget_cons, h, ih]

theorem dget_eq_none_of_not_mem (d : Headers) (k : String)
    (h : k ∉ d.map Prod.fst) : dget d k = none := by
  induction d with
  | nil => rfl
  | cons p d ih =>
      simp only [List.map_cons, List.mem_cons] at h
      push_neg at h
      rw [dget_cons, if_neg (fun hh => h.1 hh.symm)]
      exact ih h.2

theorem dget_map_replace (d : Headers) (k v k' : String) :
    dget (d.map (fun p => if p.1 == k then (k, v) else p)) k' =
      if k' = k then (match dget d k with | some _ => some v | none => none)
      else dget d k' := by
  induction d with
  | nil => by_cases hk : k' = k <;> simp [dget_nil, hk]
  | cons p d ih =>
      by_cases hp : p.1 = k
      · subst hp
        by_cases hk : k' = p.1
        · subst hk
          simp [dget_cons, ih]
        · have hpk : ¬ p.1 = k' := fun hh => hk hh.symm
          simp only [List.map_cons, beq_self_eq_true, if_true]
          rw [if_neg hk, dget_cons, dget_cons, if_neg hpk, if_neg hpk,
            ih, if_neg hk]
      · have hb : (p.1 == k) = false := by simp [hp]
        by_cases hpk : p.1 = k'
        · have hk : ¬ k' = k := fun hh => hp (hpk.trans hh)
          simp [dget_cons, hb, hp, hpk, hk]
        · simp only [List.map_cons, hb, Bool.false_eq_true, if_false]
          rw [dget_cons p (List.map (fun q => if q.1 == k then (k, v) else q) d) k',
            if_neg hpk, ih, dget_cons p d k, if_neg hp, dget_cons p d k',
            if_neg hpk]

theorem dget_dinsert (d : Headers) (k v k' : String) :
    dget (dinsert d k v) k' = if k' = k then some v else dget d k' := by
  unfold dinsert
  by_cases hc : dcontains d k
  · rw [if_pos hc, dget_map_replace]
    by_cases hk : k' = k
    · subst hk
      have hex : ∃ w, dget d k' = some w := by
        cases h : dget d k' with
        | none => rw [dcontains, h] at hc; simp at hc
        | some w => exact ⟨w, rfl⟩
      rcases hex with ⟨w, hw⟩
      simp [hw]
    · simp [hk]
  · rw [if_neg hc, dget_append]
    have hnone : dget d k = none := by
      cases h : dget d k with
      | none => rfl
      | some v => rw [dcontains, h] at hc; simp at hc
    by_cases hk : k' = k
    · subst hk
      simp [hnone, dget_cons]
    · have hkk : ¬ k = k' := fun hh => hk hh.symm
      cases h : dget d k' <;> simp [h, dget_cons, dget_nil, hk, hkk]

theorem dget_dupdate (A B : Headers) (k : String) (hB : NodupKeys B) :
    dget (dupdate A B) k = match dget B k with
      | some v => some v
      | none => dget A k := by
  induction B generalizing A with
  | nil => simp [dupdate, dget_nil]
  | cons p B ih =>
      have hB' : NodupKeys B := by
        simpa [NodupKeys] using (List.nodup_cons.mp hB).2
      have hnot : p.1 ∉ List.map Prod.fst B := by
        simpa [NodupKeys] using (List.nodup_cons.mp hB).1
      have step : dupdate A (p :: B) = dupdate (dinsert A p.1 p.2) B := rfl
      rw [step, ih _ hB', dget_cons]
      by_cases hk : p.1 = k
      · subst hk
        rw [dget_eq_none_of_not_mem B p.1 hnot]
        simp [dget_dinsert]
      · rw [if_neg hk]
        cases h : dget B k with
        | some v => simp [h]
        | none =>
            simp only [h]
            rw [dget_dinsert, if_neg (fun hh : k = p.1 => hk hh.symm)]

theorem dget_derase (d : Headers) (k₀ k : String) :
    dget (derase d k₀) k = if k = k₀ then none else dget d k := by
  induction d with
  | nil => by_cases hk : k = k₀ <;> simp [derase, dget_nil, hk]
  | cons p d ih =>
      by_cases hp : p.1 = k₀
      · have hf : (p.1 != k₀) = false := by simp [hp]
        have hstep : derase (p :: d) k₀ = derase d k₀ := by
          simp [derase, List.filter_cons, hf]
        rw [hstep, ih]
        by_cases hk : k = k₀
        · rw [if_pos hk, if_pos hk]
        · rw [if_neg hk, if_neg hk, dget_cons,
            if_neg (fun hh : p.1 = k => hk (hh.symm.trans hp))]
      · have hf : (p.1 != k₀) = true := by simp [hp]
        have hstep : derase (p :: d) k₀ = p :: derase d k₀ := by
          simp [derase, List.filter_cons, hf]
        rw [hstep, dget_cons, dget_cons, ih]
        by_cases hpk : p.1 = k
        · rw [if_pos hpk, if_pos hpk,
            if_neg (fun hh : k = k₀ => hp (hpk.trans hh))]
        · rw [if_neg hpk, if_neg hpk]

/-! ### `str.format` lemmas -/

theorem pyFormatChars_isSome_iff (cs : List Char) (parts : List String) :
    (pyFormatChars cs parts).isSome = true ↔
      countPlaceholders cs ≤ parts.length := by
  induction cs, parts using pyFormatChars.induct with
  | case1 parts => simp [pyFormatChars, countPlaceholders]
  | case2 rest => simp [pyFormatChars, countPlaceholders]
  | case3 rest p ps v hv ih =>
      rw [hv] at ih
      simp only [Option.isSome_some, true_iff] at ih
      rw [pyFormatChars.eq_3, countPlaceholders.eq_1, hv]
      simp only [Option.isSome_some, true_iff, List.length_cons]
      omega
  | case4 rest p ps hv ih =>
      rw [hv] at ih
      simp only [Option.isSome_none, Bool.false_eq_true, false_iff,
        not_le] at ih
      rw [pyFormatChars.eq_3, countPlaceholders.eq_1, hv]
      simp only [Option.isSome_none, Bool.false_eq_true, false_iff, not_le,
        List.length_cons]
      omega
  | case5 c rest parts hne v hv ih =>
      rw [hv] at ih
      rw [pyFormatChars.eq_4 _ _ _ hne, countPlaceholders.eq_2 _ _ hne, hv]
      simpa using ih
  | case6 c rest parts hne hv ih =>
      rw [hv] at ih
      rw [pyFormatChars.eq_4 _ _ _ hne, countPlaceholders.eq_2 _ _ hne, hv]
      simpa using ih

/-! ### base64 and string helper lemmas -/

theorem b64Chunks_ne_nil (b : Nat) (rest : List Nat) :
    b64Chunks (b :: rest) ≠ [] := by
  rcases rest with _ | ⟨b2, rest2⟩
  · simp [b64Chunks]
  · rcases rest2 with _ | ⟨b3, rest3⟩ <;> simp [b64Chunks]

theorem b64encode_ne_empty (s : String) (hs : s ≠ "") : b64encode s ≠ "" := by
  rcases s with ⟨data⟩
  rcases data with _ | ⟨c, cs⟩
  · exact absurd rfl hs
  · intro h
    have hchunks : b64Chunks (Char.toNat c :: cs.map Char.toNat) = [] := by
      simpa [b64encode, String.toList] using congrArg String.data h
    exact b64Chunks_ne_nil _ _ hchunks

theorem append_middle_ne_empty (u mid p : String) (hmid : mid.length ≠ 0) :
    u ++ mid ++ p ≠ "" := by
  intro h
  have hlen := congrArg String.length h
  simp only [String.length_append] at hlen
  have h0 : ("" : String).length = 0 := rfl
  omega

/-! ### Inversion of a dispatched `make_request` -/

theorem make_request_send_inv (c : HTTPClient) (st : Nat) (now : Int)
    (a : MakeArgs) (plan : RequestPlan)
    (h : c.make_request st now a = PreOutcome.send plan) :
    plan.headers =
      (if a.auth_required then
        match a.headers with
        | some hh => hh
        | none =>
            dinsert c.headers "Authorization"
              ((c.token.map Token.token).getD "")
      else
        match a.headers with
        | some hh => hh
        | none => c.headers) ∧
    plan.auth =
      (if dcontains plan.headers "Authorization" then none
       else match a.auth with | some x => some x | none => c.auth) ∧
    plan.url =
      (if c.url ≠ "" ∧ a.url_part ≠ "" then c.url ++ "/" ++ a.url_part
       else if c.url ≠ "" then c.url else a.url_part) := by
  unfold HTTPClient.make_request at h
  by_cases h1 : a.auth_required ∧ c.tokenOk now = false
  · rw [if_pos h1] at h
    cases h
  · rw [if_neg h1] at h
    simp only [] at h
    by_cases hurl :
        (if c.url ≠ "" ∧ a.url_part ≠ "" then c.url ++ "/" ++ a.url_part
         else if c.url ≠ "" then c.url else a.url_part) = ""
    · rw [if_pos hurl] at h
      cases h
    · rw [if_neg hurl] at h
      cases h
      exact ⟨rfl, rfl, rfl⟩

/-! ## Claims -/

/-- Claim C1 (amended): when both the client base URL and the `url_part`
argument are empty, `make_request` logs and returns `None` without
attempting a request (the `raise` is commented out in the source, so no
`UrlError` is raised); when a request is dispatched, its URL is
`self.url + "/" + url_part` if both are non-empty, else whichever one is
non-empty. -/
theorem c1_make_request_url_assembly (c : HTTPClient) (st : Nat) (now : Int)
    (a : MakeArgs) :
    (c.url = "" → a.url_part = "" →
      c.make_request st now a = PreOutcome.abortNone) ∧
    (∀ plan, c.make_request st now a = PreOutcome.send plan →
      plan.url =
        (if c.url ≠ "" ∧ a.url_part ≠ "" then c.url ++ "/" ++ a.url_part
         else if c.url ≠ "" then c.url else a.url_part)) := by
  constructor
  · intro h1 h2
    unfold HTTPClient.make_request
    by_cases har : a.auth_required ∧ c.tokenOk now = false
    · rw [if_pos har]
    · rw [if_neg har]
      simp [h1, h2]
  · intro plan hp
    exact (make_request_send_inv c st now a plan hp).2.2

/-- Witness for C1: a concrete aborted call and a concrete dispatched
call. -/
theorem c1_make_request_url_assembly_witness :
    ({ url := "" } : HTTPClient).make_request 0 0
        { method := "GET", url_part := "" } = PreOutcome.abortNone ∧
    ({ method := "GET", url := "http://h/x", auth := none, payload := none,
        params := none, headers := [], timeout := 30 } : RequestPlan).url =
      (if ("http://h" : String) ≠ "" ∧ ("x" : String) ≠ "" then
        "http://h" ++ "/" ++ "x"
       else if ("http://h" : String) ≠ "" then "http://h" else "x") :=
  ⟨(c1_make_request_url_assembly { url := "" } 0 0
      { method := "GET", url_part := "" }).1 rfl rfl,
   (c1_make_request_url_assembly { url := "http://h" } 0 0
      { method := "GET", url_part := "x" }).2 _ (by decide)⟩

/-- Counterexample to C1 as stated: with both URL parts empty the call returns
`None` — the outcome is not a raised `ApiUrlError`, contrary to the
claim. -/
theorem c1_missing_url_counterexample :
    ({ url := "" } : HTTPClient).make_request 0 0
        { method := "GET", url_part := "" } = PreOutcome.abortNone ∧
    PreOutcome.abortNone ≠ PreOutcome.raiseErr PyErr.apiUrlError :=
  ⟨rfl, by decide⟩

/-- Claim C5: an HTTP call completing with an empty response body reaches the
final `return response` with the local `response` never assigned, so the
call does not produce a typed response object — it fails with an
unclassified `UnboundLocalError`. -/
theorem c5_empty_body_unbound_local (α : Type) (decode : String → Option α)
    (status : Nat) (respHeaders : Headers) :
    processResponse decode "" status respHeaders = BodyOutcome.unboundLocal ∧
    ∀ r : ResponseObj α,
      processResponse decode "" status respHeaders ≠ BodyOutcome.ok r := by
  refine ⟨rfl, ?_⟩
  intro r
  simp [processResponse]

/-- Claim C7: an `Authorization` entry already present in the effective
header set suppresses the `auth` argument (the dispatched request carries
the header, and `auth` is `None`); without such an entry the dispatched
`auth` is the argument if given, else the client's stored auth. -/
theorem c7_authorization_header_wins (c : HTTPClient) (st : Nat) (now : Int)
    (a : MakeArgs) (plan : RequestPlan)
    (h : c.make_request st now a = PreOutcome.send plan) :
    (dcontains plan.headers "Authorization" = true → plan.auth = none) ∧
    (dcontains plan.headers "Authorization" = false →
      plan.auth = (match a.auth with | some x => some x | none => c.auth)) := by
  have hinv := (make_request_send_inv c st now a plan h).2.1
  constructor
  · intro hc
    rw [hinv, if_pos hc]
  · intro hc
    rw [hinv, if_neg (by simp [hc])]

/-- Witness for C7: a client whose headers carry `Authorization: Bearer X`
dispatches with `auth = None` although an explicit `auth` argument was
supplied. -/
theorem c7_authorization_header_wins_witness :
    ({ method := "GET", url := "http://h/api/x", auth := none,
        payload := none, params := none,
        headers := [("Authorization", "Bearer X")],
        timeout := 30 } : RequestPlan).auth = none :=
  (c7_authorization_header_wins presetAuthClient 0 0
      { method := "GET", url_part := "x",
        auth := some { login := "arg", password := "pw" } }
      _ (by decide)).1 (by decide)

/-- Claim C8: with `auth_required` and no currently-valid token the call
aborts before any request and returns `None` (no exception); with a valid
token (and no per-call header override, so the effective headers alias the
client's) the token string is placed under `Authorization` and the request
is dispatched. -/
theorem c8_auth_required_soft_failure (c : HTTPClient) (st : Nat) (now : Int)
    (a : MakeArgs) (har : a.auth_required = true) :
    (c.tokenOk now = false → c.make_request st now a = PreOutcome.abortNone) ∧
    (∀ t, c.token = some t → t.is_valid now = true → a.headers = none →
      (c.url ≠ "" ∨ a.url_part ≠ "") →
      ∃ plan, c.make_request st now a = PreOutcome.send plan ∧
        dget plan.headers "Authorization" = some t.token) := by
  constructor
  · intro htok
    unfold HTTPClient.make_request
    rw [if_pos ⟨har, htok⟩]
  · intro t hct hval hh hor
    have htok : c.tokenOk now = true := by
      rw [HTTPClient.tokenOk, hct]
      exact hval
    unfold HTTPClient.make_request
    rw [if_neg (by simp [htok])]
    simp only [har, if_true, hh, hct, Option.map_some', Option.getD_some]
    set U := (if c.url ≠ "" ∧ a.url_part ≠ "" then c.url ++ "/" ++ a.url_part
       else if c.url ≠ "" then c.url else a.url_part) with hU
    have hUne : ¬ U = "" := by
      rw [hU]
      by_cases hcu : c.url = ""
      · rcases hor with hne | hne
        · exact absurd hcu hne
        · rw [if_neg (by simp [hcu]), if_neg (by simp [hcu])]
          exact hne
      · by_cases hup : a.url_part = ""
        · rw [if_neg (by simp [hup]), if_pos hcu]
          exact hcu
        · rw [if_pos ⟨hcu, hup⟩]
          exact append_middle_ne_empty c.url "/" a.url_part (by decide)
    refine ⟨_, by rw [if_neg hUne], ?_⟩
    rw [dget_dinsert]
    simp

/-- Witness for C8: the sample client aborts with `None` once the token is
expired (`now = 200`), and dispatches with the token in the
`Authorization` header while it is valid (`now = 120`). -/
theorem c8_auth_required_soft_failure_witness :
    tokenClient.make_request 0 200
        { method := "GET", url_part := "x", auth_required := true } =
      PreOutcome.abortNone ∧
    (∃ plan, tokenClient.make_request 0 120
        { method := "GET", url_part := "x", auth_required := true } =
          PreOutcome.send plan ∧
      dget plan.headers "Authorization" = some sampleToken.token) :=
  ⟨(c8_auth_required_soft_failure tokenClient 0 200 _ rfl).1 (by decide),
   (c8_auth_required_soft_failure tokenClient 0 120 _ rfl).2 sampleToken rfl
     (by decide) rfl (Or.inl (by decide))⟩

/-- Claim C2 (amended): `Auth.base_auth` is `"Base "` (the prefix used by the
source and asserted by its own test suite — not `"Basic "`) followed by
`base64(username + ":" + password)` when both credentials are truthy, and
`None` when either is absent or empty. -/
theorem c2_base_auth_format (a : Auth) (u p : String) :
    (a.username = some u → a.password = some p → u ≠ "" → p ≠ "" →
      a.base_auth = some ("Base " ++ b64encode (u ++ ":" ++ p))) ∧
    ((a.username = none ∨ a.username = some "" ∨ a.password = none ∨
        a.password = some "") →
      a.base_auth = none) := by
  constructor
  · intro hu hp hu0 hp0
    have hstr : a.auth_str = some (b64encode (u ++ ":" ++ p)) := by
      unfold Auth.auth_str
      rw [hu, hp]
      simp [hu0, hp0]
    have hne : b64encode (u ++ ":" ++ p) ≠ "" :=
      b64encode_ne_empty _ (append_middle_ne_empty u ":" p (by decide))
    unfold Auth.base_auth
    rw [hstr]
    simp [hne]
  · intro hdisj
    have hstr : a.auth_str = none := by
      unfold Auth.auth_str
      rcases hdisj with h | h | h | h
      · rw [h]
      · rw [h]
        cases a.password with
        | none => rfl
        | some q => simp
      · rw [h]; cases a.username <;> rfl
      · rw [h]
        cases a.username with
        | none => rfl
        | some q => simp
    unfold Auth.base_auth
    rw [hstr]

/-- Witness for C2: the spec's own credential pair. -/
theorem c2_base_auth_format_witness :
    ({ username := some "user", password := some "pass" } : Auth).base_auth =
      some ("Base " ++ b64encode ("user" ++ ":" ++ "pass")) :=
  (c2_base_auth_format { username := some "user", password := some "pass" }
      "user" "pass").1 rfl rfl (by decide) (by decide)

/-- Counterexample to C2 as stated: for `user`/`pass` the header value is
`"Base dXNlcjpwYXNz"`, not `"Basic " + base64(...)` as the claim states. -/
theorem c2_base_not_basic_counterexample :
    ({ username := some "user", password := some "pass" } : Auth).base_auth =
      some "Base dXNlcjpwYXNz" ∧
    some "Base dXNlcjpwYXNz" ≠
      some ("Basic " ++ b64encode ("user" ++ ":" ++ "pass")) := by
  exact ⟨by decide, by decide⟩

/-- Claim C3 (amended): `del_headers_item(key)` removes the `Authorization`
entry when one is present — regardless of the `key` argument — and removes
nothing else; it is a no-op exactly when no `Authorization` entry exists. -/
theorem c3_del_headers_item_removes_authorization (h : Headers)
    (key : String) :
    dget (del_headers_item h key) "Authorization" = none ∧
    (∀ k, k ≠ "Authorization" → dget (del_headers_item h key) k = dget h k) ∧
    (dcontains h "Authorization" = false → del_headers_item h key = h) := by
  refine ⟨?_, ?_, ?_⟩
  · unfold del_headers_item
    by_cases hc : dcontains h "Authorization"
    · rw [if_pos hc, dget_derase, if_pos rfl]
    · rw [if_neg hc]
      cases hh : dget h "Authorization" with
      | none => rfl
      | some v => rw [dcontains, hh] at hc; simp at hc
  · intro k hk
    unfold del_headers_item
    by_cases hc : dcontains h "Authorization"
    · rw [if_pos hc, dget_derase, if_neg hk]
    · rw [if_neg hc]
  · intro hc
    unfold del_headers_item
    rw [if_neg (by simp [hc])]

/-- Witness for C3: deleting by an unrelated key leaves an
`Authorization`-free mapping untouched, and strips `Authorization` when
present. -/
theorem c3_del_headers_item_witness :
    dget (del_headers_item [("Accept", "application/json")] "X-Custom")
        "Accept" = dget [("Accept", "application/json")] "Accept" ∧
    del_headers_item ([("Accept", "application/json")] : Headers)
        "X-Custom" = [("Accept", "application/json")] ∧
    dget (del_headers_item [("Authorization", "Bearer X")] "X-Custom")
        "Authorization" = none :=
  ⟨(c3_del_headers_item_removes_authorization _ "X-Custom").2.1 "Accept"
      (by decide),
   (c3_del_headers_item_removes_authorization _ "X-Custom").2.2 (by decide),
   (c3_del_headers_item_removes_authorization _ "X-Custom").1⟩

/-- Counterexample to C3 as stated: deleting the unrelated key `"X-Custom"` from a
mapping holding only `Authorization` empties it — it is not the claimed
no-op. -/
theorem c3_del_headers_item_counterexample :
    del_headers_item ([("Authorization", "Bearer X")] : Headers) "X-Custom" =
      ([] : Headers) ∧
    ([] : Headers) ≠ [("Authorization", "Bearer X")] :=
  ⟨by decide, by decide⟩

/-- Claim C9: `HttpHeaders.__add__` with a duplicate-free right operand
produces a new header set whose lookup is right-biased: `B`'s value where
`B` has the key, else `A`'s (the embedding is purely functional, so neither
operand is mutated). -/
theorem c9_headers_merge_lookup (A B : Headers) (k : String)
    (hB : NodupKeys B) :
    ∃ C, headers_add A (some B) = Except.ok C ∧
      dget C k = (match dget B k with
        | some v => some v
        | none => dget A k) :=
  ⟨dupdate A B, rfl, dget_dupdate A B k hB⟩

/-- Witness for C9: right operand wins on the conflicting `Accept` key. -/
theorem c9_headers_merge_lookup_witness :
    ∃ C, headers_add [("Accept", "text/plain"), ("X-A", "1")]
        (some [("Accept", "application/json")]) = Except.ok C ∧
      dget C "Accept" =
        (match dget [("Accept", "application/json")] "Accept" with
         | some v => some v
         | none => dget [("Accept", "text/plain"), ("X-A", "1")] "Accept") :=
  c9_headers_merge_lookup _ _ "Accept" (by decide)

/-- Claim C10: a constructed `Token` is valid exactly when it has no TTL or
`issuedAt + ttl > now`; with a 60-second TTL issued at `t0` it is valid at
`t0 + 59` and invalid at `t0 + 61`. -/
theorem c10_token_validity (s : String) (it be : Option Int)
    (nowC now t0 : Int) :
    ((Token.init s it be nowC).is_valid now = true ↔
      ((Token.init s it be nowC).before_expiration = none ∨
        ∃ b, (Token.init s it be nowC).before_expiration = some b ∧
          (Token.init s it be nowC).initialization_time + b > now)) ∧
    (Token.init "tok" (some t0) (some 60) t0).is_valid (t0 + 59) = true ∧
    (Token.init "tok" (some t0) (some 60) t0).is_valid (t0 + 61) = false := by
  refine ⟨?_, ?_, ?_⟩
  · unfold Token.init Token.is_valid
    rcases be with _ | b
    · simp
    · by_cases hb : b = 0
      · subst hb
        simp
      · simp [hb]
  · unfold Token.init Token.is_valid
    simp only [show ¬(60 : Int) = 0 by norm_num, if_false, gt_iff_lt,
      lt_irrefl, decide_eq_true_eq]
    omega
  · unfold Token.init Token.is_valid
    simp only [show ¬(60 : Int) = 0 by norm_num, if_false, gt_iff_lt,
      lt_irrefl, decide_eq_false_iff_not, not_lt]
    omega

/-- Claim C4 (amended): positional template substitution succeeds exactly
when the parameter list is at least as long as the placeholder count —
too few parameters raise `ActionURLMatchError` (never a bare
`IndexError`), while surplus parameters are silently ignored, so only the
too-few direction of the claimed length-match rule holds. -/
theorem c4_path_substitution (r : Resource) (an : String) (a : Action)
    (tmpl : String) (args : List String)
    (hact : r.get_action an = some a) (hpath : a.path = some tmpl)
    (htm : tmpl ≠ "") (hwf : wfTemplate tmpl.toList = true)
    (hargs : args ≠ []) :
    (countPlaceholders tmpl.toList ≤ args.length →
      ∃ s, pyFormat tmpl args = some s ∧
        r.get_action_path_part an none args =
          Except.ok (some
            (if s ≠ "" then a.name ++ "/" ++ s else a.name))) ∧
    (args.length < countPlaceholders tmpl.toList →
      r.get_action_path_part an none args =
        Except.error PyErr.actionURLMatchError) ∧
    r.get_action_path_part an none args ≠ Except.error PyErr.indexError := by
  refine ⟨?_, ?_, ?_⟩
  · intro hle
    have hsome : (pyFormat tmpl args).isSome = true :=
      (pyFormatChars_isSome_iff tmpl.toList args).mpr hle
    rcases Option.isSome_iff_exists.mp hsome with ⟨s, hs⟩
    refine ⟨s, hs, ?_⟩
    unfold Resource.get_action_path_part
    rw [hact]
    simp [hargs, hpath, htm, hs, Action.get_obj]
  · intro hlt
    have hnone : pyFormat tmpl args = none := by
      cases hf : pyFormat tmpl args with
      | none => rfl
      | some s =>
          have := (pyFormatChars_isSome_iff tmpl.toList args).mp
            (by rw [pyFormat] at hf; rw [hf]; rfl)
          omega
    unfold Resource.get_action_path_part
    rw [hact]
    simp [hargs, hpath, htm, hnone]
  · unfold Resource.get_action_path_part
    rw [hact]
    cases hf : pyFormat tmpl args with
    | none => simp [hargs, hpath, htm, hf]
    | some s => simp [hargs, hpath, htm, hf]

/-- Witness for C4: the spec scenario — two parameters substitute into the
two-placeholder template, one parameter raises `ActionURLMatchError`. -/
theorem c4_path_substitution_witness :
    (∃ s, pyFormat "\x7b\x7d/\x7b\x7d/detail" ["12", "34"] = some s ∧
      detailResource.get_action_path_part "act" none ["12", "34"] =
        Except.ok (some
          (if s ≠ "" then detailAction.name ++ "/" ++ s
           else detailAction.name))) ∧
    detailResource.get_action_path_part "act" none ["12"] =
      Except.error PyErr.actionURLMatchError :=
  ⟨(c4_path_substitution detailResource "act" detailAction _ ["12", "34"]
      rfl rfl (by decide) (by decide) (by decide)).1 (by decide),
   (c4_path_substitution detailResource "act" detailAction _ ["12"]
      rfl rfl (by decide) (by decide) (by decide)).2.1 (by decide)⟩

/-- Counterexample to C4 as stated: three parameters against the two-placeholder
template succeed (`"a/b/detail"`, surplus ignored) instead of raising the
`ActionURLMatchError` the claim requires for any length mismatch. -/
theorem c4_surplus_params_counterexample :
    pyFormat "\x7b\x7d/\x7b\x7d/detail" ["a", "b", "c"] = some "a/b/detail" ∧
    detailResource.get_action_path_part "act" none ["a", "b", "c"] =
      Except.ok (some "act/a/b/detail") ∧
    detailResource.get_action_path_part "act" none ["a", "b", "c"] ≠
      Except.error PyErr.actionURLMatchError := by
  refine ⟨rfl, rfl, ?_⟩
  rw [show detailResource.get_action_path_part "act" none ["a", "b", "c"] =
    Except.ok (some "act/a/b/detail") from rfl]
  simp

/-- Claim C6 (amended): when the action owns a header set, the headers handed
to `make_request` by `RestClient.request` are the right-biased merge of
client, resource and action headers (action strongest); an action whose
`headers` attribute is `None` instead makes the merge raise
`ArithmeticError`, so such pairs never dispatch. -/
theorem c6_request_header_precedence :
    (∀ (c : RestClient) (st : Nat) (now : Int) (rn an : String)
      (args : List String) (auth : Option BasicAuth)
      (hArg params payload : Option Headers) (res : Resource) (a : Action)
      (ah : Headers) (k : String) (plan : RequestPlan),
      c.get_resource rn = some res →
      res.get_action an = some a →
      a.headers = some ah →
      NodupKeys res.headers →
      NodupKeys ah →
      c.request st now rn an none args auth hArg params payload =
        Except.ok (some (PreOutcome.send plan)) →
      dget plan.headers k =
        (match dget ah k with
         | some v => some v
         | none =>
             match dget res.headers k with
             | some v => some v
             | none => dget c.headers k)) ∧
    Option.bind (sentHeaders (acceptClient.request 0 0 "r" "act" none []
        none none none none)) (fun hh => dget hh "Accept") =
      some "application/json" := by
  constructor
  · intro c st now rn an args auth hArg params payload res a ah k plan hres
      hact hah hnr hna hreq
    unfold RestClient.request at hreq
    rw [hres] at hreq
    simp only [Resource.get_method, hact] at hreq
    cases hu : c.get_url_part rn an none args with
    | error e => rw [hu] at hreq; simp at hreq
    | ok up =>
        rw [hu] at hreq
        simp only [Resource.get_headers, hact, hah, headers_add,
          Except.ok.injEq, Option.some.injEq] at hreq
        have hinv := (make_request_send_inv _ _ _ _ _ hreq).1
        simp only [Bool.false_eq_true, if_false] at hinv
        rw [hinv, dget_dupdate _ _ _ hna, dget_dupdate _ _ _ hnr]
  · rfl

/-- Witness for C6: the spec's precedence scenario — client
`Accept: text/plain`, resource without headers, action
`Accept: application/json` — dispatches with `application/json`. -/
theorem c6_request_header_precedence_witness :
    dget ({ method := "GET", url := "http://h/rpath/act", auth := none,
            payload := none, params := none,
            headers := [("Accept", "application/json")],
            timeout := 30 } : RequestPlan).headers "Accept" =
      (match dget [("Accept", "application/json")] "Accept" with
       | some v => some v
       | none =>
           match dget plainResource.headers "Accept" with
           | some v => some v
           | none => dget acceptClient.headers "Accept") :=
  c6_request_header_precedence.1 acceptClient 0 0 "r" "act" [] none none
    none none plainResource jsonAction [("Accept", "application/json")]
    "Accept" _ rfl rfl rfl (by decide) (by decide) rfl

/-- Counterexample to C6 as stated: an action built without a header set
(`headers = None`) makes `request` raise `ArithmeticError` — no request is
dispatched, contrary to the claim's "including actions constructed without
their own header set". -/
theorem c6_action_without_headers_counterexample :
    bareClient.request 0 0 "r" "act" none [] none none none none =
      Except.error PyErr.arithmeticError ∧
    sentHeaders (bareClient.request 0 0 "r" "act" none [] none none none
      none) = none :=
  ⟨rfl, rfl⟩

end RestCore
